import Mathlib

/-!
Verification of the filtering and KPI-aggregation core of the student
performance dashboard repository.  The definitions below are a shallow
embedding of the Python sources `filter_engine.py`, `kpi_calculator.py`,
`database_manager.py` and `file_manager.py`; the theorems settle the
frozen claims about the natural-language specification.
-/

/-- A Python scalar value as it can appear in a filter specification:
`None`, a string, an int (floats are represented by their integer
instances; no claim exercises non-integral floats), or a bool. -/
inductive PyScalar where
  | sNone : PyScalar
  | sStr : String → PyScalar
  | sInt : Int → PyScalar
  | sBool : Bool → PyScalar
deriving DecidableEq

/-- A Python filter value: a scalar, a tuple of scalars (ranges), or a
list of scalars (set membership).  This is exactly the value domain of
the FilterSpec data model in the specification. -/
inductive PyVal where
  | scalar : PyScalar → PyVal
  | tup : List PyScalar → PyVal
  | list : List PyScalar → PyVal
deriving DecidableEq

/-- A filter specification: an insertion-ordered mapping from attribute
name to value, embedded as an association list (Python dict iteration
order is insertion order). -/
abbrev FilterSpec := List (String × PyVal)

/-- Python `str()` of a scalar: `str(None) = "None"`, strings unchanged,
`str(True) = "True"`, `str(False) = "False"`, ints in decimal with a
leading minus sign when negative. -/
def pyScalarStr : PyScalar → String
  | .sNone => "None"
  | .sStr s => s
  | .sInt n => toString n
  | .sBool b => if b then "True" else "False"

/-- Python `str.lower()`, modelled on its ASCII behaviour (all column
names and keys in this repository are ASCII). -/
def pyLower (s : String) : String := String.mk (s.toList.map Char.toLower)

/-- Python `str.upper()`, modelled on its ASCII behaviour. -/
def pyUpper (s : String) : String := String.mk (s.toList.map Char.toUpper)

/-- Whether the first character list is a prefix of the second. -/
def isPrefixOfList : List Char → List Char → Bool
  | [], _ => true
  | _ :: _, [] => false
  | a :: as, b :: bs => a == b && isPrefixOfList as bs

/-- Whether the needle occurs as a contiguous sublist of the haystack. -/
def listHasSub (needle : List Char) : List Char → Bool
  | [] => isPrefixOfList needle []
  | b :: bs => isPrefixOfList needle (b :: bs) || listHasSub needle bs

/-- Python substring membership `needle in hay`. -/
def strHasSub (hay needle : String) : Bool := listHasSub needle.toList hay.toList

/-- Python `sep.join(parts)`. -/
def pyJoin (sep : String) : List String → String
  | [] => ""
  | [x] => x
  | x :: y :: xs => x ++ sep ++ pyJoin sep (y :: xs)

/-- Python `value is None` for a filter value. -/
def py_is_none : PyVal → Bool
  | .scalar .sNone => true
  | _ => false

/-- Python `isinstance(value, list)`. -/
def py_is_list : PyVal → Bool
  | .list _ => true
  | _ => false

/-- Python `isinstance(value, tuple)`. -/
def py_is_tuple : PyVal → Bool
  | .tup _ => true
  | _ => false

/-- Python `isinstance(value, str)`. -/
def py_is_str : PyVal → Bool
  | .scalar (.sStr _) => true
  | _ => false

/-- Python `isinstance(value, (int, float))`.  Note that Python `bool`
is a subclass of `int`, so boolean values satisfy this test. -/
def py_is_int_or_float : PyVal → Bool
  | .scalar (.sInt _) => true
  | .scalar (.sBool _) => true
  | _ => false

/-- Python `isinstance(value, bool)`. -/
def py_is_bool : PyVal → Bool
  | .scalar (.sBool _) => true
  | _ => false

/-- Python `len(value)` for list and tuple values (the sources only call
`len` on values already known to be lists or tuples). -/
def pyLen : PyVal → Nat
  | .list xs => xs.length
  | .tup xs => xs.length
  | .scalar _ => 0

/-- One element of the `IN (...)` list built by
`FilterEngine.build_filter_query` (filter_engine.py line 50):
`f"'{v}'" if isinstance(v, str) else str(v)`. -/
def bfq_item : PyScalar → String
  | .sStr s => "\x27" ++ s ++ "\x27"
  | v => pyScalarStr v

/-- One iteration of the loop body of `FilterEngine.build_filter_query`
(filter_engine.py lines 44-67), returning the emitted condition, if any.
The arms follow the isinstance dispatch order of the Python chain:
None check, non-empty list, two-element tuple, str, (int, float).
Because Python `bool` is a subclass of `int`, a boolean value is caught
by the `(int, float)` arm, so the final `isinstance(value, bool)` arm of
the source can never fire (its output text would be identical anyway). -/
def bfq_condition (key : String) : PyVal → Option String
  | .scalar .sNone => none
  | .list [] => none
  | .list (x :: xs) => some (key ++ " IN (" ++ pyJoin ", " ((x :: xs).map bfq_item) ++ ")")
  | .tup [a, b] => some (key ++ " BETWEEN " ++ pyScalarStr a ++ " AND " ++ pyScalarStr b)
  | .tup _ => none
  | .scalar (.sStr s) => some (key ++ " = \x27" ++ s ++ "\x27")
  | .scalar (.sInt n) => some (key ++ " = " ++ toString n)
  | .scalar (.sBool b) => some (key ++ " = " ++ (if b then "True" else "False"))

/-- `FilterEngine.build_filter_query` (filter_engine.py lines 24-69):
returns a WHERE clause body (without the WHERE keyword), the empty
string when there are no filters or no emitted conditions. -/
def build_filter_query (filters : FilterSpec) : String :=
  if filters.isEmpty then ""
  else
    let conditions := filters.filterMap (fun kv => bfq_condition kv.1 kv.2)
    if conditions.isEmpty then "" else pyJoin " AND " conditions

/-- The branch of the `build_filter_query` if/elif chain selected for a
given filter value. -/
inductive BFQBranch where
  | skipNone : BFQBranch
  | inList : BFQBranch
  | betweenTuple : BFQBranch
  | strEq : BFQBranch
  | numEq : BFQBranch
  | boolEq : BFQBranch
  | unmatched : BFQBranch
deriving DecidableEq

/-- The if/elif dispatch of `FilterEngine.build_filter_query`
(filter_engine.py lines 44-67), written as the literal chain of
isinstance tests in source order.  `boolEq` labels the dedicated
`isinstance(value, bool)` arm at lines 65-67. -/
def bfq_branch (v : PyVal) : BFQBranch :=
  if py_is_none v then .skipNone
  else if py_is_list v && pyLen v > 0 then .inList
  else if py_is_tuple v && pyLen v == 2 then .betweenTuple
  else if py_is_str v then .strEq
  else if py_is_int_or_float v then .numEq
  else if py_is_bool v then .boolEq
  else .unmatched

/-- Python `>` between the scalar values that can appear in a range
filter, as used by `validate_filters` on `value[0] > value[1]`.
Booleans compare as the ints 0 and 1.  Comparing a string with a number
raises TypeError in Python; those pairs are modelled as `false` and are
exercised by no claim. -/
def pyGTscalar : PyScalar → PyScalar → Bool
  | .sInt a, .sInt b => decide (b < a)
  | .sStr a, .sStr b => decide (b < a)
  | .sBool a, .sBool b => a && !b
  | .sBool a, .sInt b => decide (b < (if a then (1 : Int) else 0))
  | .sInt a, .sBool b => decide ((if b then (1 : Int) else 0) < a)
  | _, _ => false

/-- One iteration of the loop body of `FilterEngine.validate_filters`
(filter_engine.py lines 149-161), accumulating error messages:
`None` values are skipped, an empty list value or a tuple whose length
is not 2 or whose start exceeds its end appends an error. -/
def validate_step (errors : List String) (kv : String × PyVal) : List String :=
  match kv.2 with
  | .scalar .sNone => errors
  | .list xs =>
      if xs.length == 0 then errors ++ ["Filter \x27" ++ kv.1 ++ "\x27 has empty list"]
      else errors
  | .tup [a, b] =>
      if pyGTscalar a b then
        errors ++ ["Filter \x27" ++ kv.1 ++ "\x27 range start is greater than end"]
      else errors
  | .tup _ => errors ++ ["Filter \x27" ++ kv.1 ++ "\x27 range must have exactly 2 values"]
  | _ => errors

/-- `FilterEngine.validate_filters` (filter_engine.py lines 137-163):
returns `(is_valid, error_messages)` with `is_valid = (len(errors) == 0)`. -/
def validate_filters (filters : FilterSpec) : Bool × List String :=
  let errors := filters.foldl validate_step []
  (errors.length == 0, errors)

/-- The column-resolution step of `KPICalculator._apply_filters_to_query`
(kpi_calculator.py lines 41-54).  Python checks `if available_columns:`,
which is false for `None` and for an empty list, in which case the key is
used verbatim; otherwise the first column whose lowercasing equals the
lowercased key is the actual key, and the entry is skipped (`none`) when
no column matches. -/
def resolve_filter_key (availableColumns : List String) (key : String) : Option String :=
  if availableColumns.isEmpty then some key
  else availableColumns.find? (fun col => pyLower col == pyLower key)

/-- One iteration of the loop body of
`KPICalculator._apply_filters_to_query` (kpi_calculator.py lines 37-64),
returning the emitted condition, if any.  `None` values are skipped; a
key absent (case-insensitively) from a non-empty column list is skipped;
a two-element tuple is emitted as a quoted BETWEEN predicate only under
the exact key `"age"` (a tuple under any other key matches none of the
isinstance arms and is skipped, as is a tuple of another length); string
and numeric scalars are emitted as quoted-identifier equality predicates.
A boolean scalar satisfies `isinstance(value, (int, float))` — Python
bool is an int subclass — and is emitted by that arm. -/
def kpi_condition (availableColumns : List String) (key : String) : PyVal → Option String
  | .scalar .sNone => none
  | v =>
    match resolve_filter_key availableColumns key with
    | none => none
    | some actualKey =>
      match v with
      | .tup [a, b] =>
          if key == "age" then
            some ("\"" ++ actualKey ++ "\" BETWEEN " ++ pyScalarStr a ++ " AND " ++ pyScalarStr b)
          else none
      | .scalar (.sStr s) => some ("\"" ++ actualKey ++ "\" = \x27" ++ s ++ "\x27")
      | .scalar (.sInt n) => some ("\"" ++ actualKey ++ "\" = " ++ toString n)
      | .scalar (.sBool b) => some ("\"" ++ actualKey ++ "\" = " ++ (if b then "True" else "False"))
      | _ => none

/-- The list of conditions accumulated by
`KPICalculator._apply_filters_to_query` over a filter specification. -/
def kpiConditions (filters : FilterSpec) (availableColumns : List String) : List String :=
  filters.filterMap (fun kv => kpi_condition availableColumns kv.1 kv.2)

/-- `KPICalculator._apply_filters_to_query` (kpi_calculator.py lines
29-75).  An empty filter dict returns the base query unchanged
(`if not self.filters`); so does an empty condition list.  Otherwise the
conditions are joined with `" AND "` and attached with `" AND "` when
`"WHERE" in base_query.upper()`, with `" WHERE "` otherwise. -/
def apply_filters_to_query (filters : FilterSpec) (baseQuery : String)
    (availableColumns : List String) : String :=
  if filters.isEmpty then baseQuery
  else
    let conditions := kpiConditions filters availableColumns
    if conditions.isEmpty then baseQuery
    else
      let whereClause := pyJoin " AND " conditions
      if strHasSub (pyUpper baseQuery) "WHERE" then baseQuery ++ " AND " ++ whereClause
      else baseQuery ++ " WHERE " ++ whereClause

/-- A query result: a list of rows of scalars (the pandas DataFrame
returned by `DatabaseManager.execute_query`, reduced to its cell
contents; `result.empty` is emptiness of the row list). -/
abbrev Frame := List (List PyScalar)

/-- The arithmetic mean of a list of reals (helper for the Pearson
coefficient below). -/
noncomputable def listMean (xs : List Real) : Real := xs.sum / (xs.length : Real)

/-- The Pearson correlation coefficient of two real sequences, the
idealisation of `np.corrcoef(x, y)[0, 1]` (an external numeric routine;
its floating-point rounding is not modelled). -/
noncomputable def pearson_corrcoef (x y : List Real) : Real :=
  let mx := listMean x
  let my := listMean y
  let cov := ((x.zip y).map (fun p => (p.1 - mx) * (p.2 - my))).sum
  cov / (Real.sqrt ((x.map (fun a => (a - mx) ^ 2)).sum) *
         Real.sqrt ((y.map (fun b => (b - my) ^ 2)).sum))

/-- `KPICalculator.calculate_correlation_coefficient` (kpi_calculator.py
lines 258-272): returns 0.0 when either input has fewer than two
elements, otherwise the Pearson coefficient of the two sequences. -/
noncomputable def calculate_correlation_coefficient (x y : List Real) : Real :=
  if x.length < 2 ∨ y.length < 2 then 0 else pearson_corrcoef x y

/-- The primary-table column list of KPI 1 (kpi_calculator.py line 89). -/
def kpi1_primary_cols : List String :=
  ["age", "gender", "parental_education_level", "exam_score"]

/-- The primary-table query template of KPI 1 (kpi_calculator.py lines
90-96), with the whitespace of the Python triple-quoted literal. -/
def kpi1_primary_base : String :=
  "\n            SELECT \n                gender as group,\n                AVG(exam_score) as average_score,\n                COUNT(*) as count\n            FROM student_habits_performance\n            "

/-- The secondary-table column list of KPI 1 (kpi_calculator.py line 105). -/
def kpi1_secondary_cols : List String :=
  ["Gender", "Parental_Education_Level", "Exam_Score"]

/-- The secondary-table query template of KPI 1 (kpi_calculator.py lines
106-112). -/
def kpi1_secondary_base : String :=
  "\n                SELECT \n                    \"Gender\" as group,\n                    AVG(\"Exam_Score\") as average_score,\n                    COUNT(*) as count\n                FROM student_performance_factors\n                "

/-- The primary query of KPI 1 after filter injection and the trailing
GROUP BY / ORDER BY suffix (kpi_calculator.py lines 98-99). -/
def kpi1_primary_query (filters : FilterSpec) : String :=
  apply_filters_to_query filters kpi1_primary_base kpi1_primary_cols
    ++ " GROUP BY gender ORDER BY average_score DESC"

/-- The secondary query of KPI 1 (kpi_calculator.py lines 113-114). -/
def kpi1_secondary_query (filters : FilterSpec) : String :=
  apply_filters_to_query filters kpi1_secondary_base kpi1_secondary_cols
    ++ " GROUP BY \"Gender\" ORDER BY average_score DESC"

/-- The primary-table column list of KPI 2 (kpi_calculator.py line 133). -/
def kpi2_primary_cols : List String :=
  ["age", "gender", "parental_education_level", "study_hours_per_day", "exam_score"]

/-- The primary-table query template of KPI 2 (kpi_calculator.py lines
134-141); note it already carries a WHERE clause. -/
def kpi2_primary_base : String :=
  "\n            SELECT \n                study_hours_per_day as study_hours,\n                exam_score\n            FROM student_habits_performance\n            WHERE study_hours_per_day IS NOT NULL \n                AND exam_score IS NOT NULL\n            "

/-- The secondary-table column list of KPI 2 (kpi_calculator.py line 149). -/
def kpi2_secondary_cols : List String :=
  ["Gender", "Parental_Education_Level", "Hours_Studied", "Exam_Score"]

/-- The secondary-table query template of KPI 2 (kpi_calculator.py lines
150-157). -/
def kpi2_secondary_base : String :=
  "\n                SELECT \n                    \"Hours_Studied\" as study_hours,\n                    \"Exam_Score\" as exam_score\n                FROM student_performance_factors\n                WHERE \"Hours_Studied\" IS NOT NULL \n                    AND \"Exam_Score\" IS NOT NULL\n                "

/-- The primary query of KPI 2 (kpi_calculator.py lines 143-144). -/
def kpi2_primary_query (filters : FilterSpec) : String :=
  apply_filters_to_query filters kpi2_primary_base kpi2_primary_cols
    ++ " ORDER BY study_hours_per_day"

/-- The secondary query of KPI 2 (kpi_calculator.py lines 158-159). -/
def kpi2_secondary_query (filters : FilterSpec) : String :=
  apply_filters_to_query filters kpi2_secondary_base kpi2_secondary_cols
    ++ " ORDER BY \"Hours_Studied\""

/-- The primary-table column list of KPI 3 (kpi_calculator.py line 178). -/
def kpi3_primary_cols : List String :=
  ["age", "gender", "parental_education_level", "attendance_percentage", "exam_score"]

/-- The primary-table query template of KPI 3 (kpi_calculator.py lines
179-187). -/
def kpi3_primary_base : String :=
  "\n            SELECT \n                ROUND(attendance_percentage / 10) * 10 as attendance_range,\n                AVG(exam_score) as average_score,\n                COUNT(*) as count\n            FROM student_habits_performance\n            WHERE attendance_percentage IS NOT NULL \n                AND exam_score IS NOT NULL\n            "

/-- The secondary-table column list of KPI 3 (kpi_calculator.py line 195). -/
def kpi3_secondary_cols : List String :=
  ["Gender", "Parental_Education_Level", "Attendance", "Exam_Score"]

/-- The secondary-table query template of KPI 3 (kpi_calculator.py lines
196-204). -/
def kpi3_secondary_base : String :=
  "\n                SELECT \n                    ROUND(\"Attendance\" / 10) * 10 as attendance_range,\n                    AVG(\"Exam_Score\") as average_score,\n                    COUNT(*) as count\n                FROM student_performance_factors\n                WHERE \"Attendance\" IS NOT NULL \n                    AND \"Exam_Score\" IS NOT NULL\n                "

/-- The primary query of KPI 3 (kpi_calculator.py lines 189-190). -/
def kpi3_primary_query (filters : FilterSpec) : String :=
  apply_filters_to_query filters kpi3_primary_base kpi3_primary_cols
    ++ " GROUP BY ROUND(attendance_percentage / 10) * 10 ORDER BY attendance_range"

/-- The secondary query of KPI 3 (kpi_calculator.py lines 205-206). -/
def kpi3_secondary_query (filters : FilterSpec) : String :=
  apply_filters_to_query filters kpi3_secondary_base kpi3_secondary_cols
    ++ " GROUP BY ROUND(\"Attendance\" / 10) * 10 ORDER BY attendance_range"

/-- The primary-table column list of KPI 4 (kpi_calculator.py line 225). -/
def kpi4_primary_cols : List String :=
  ["age", "gender", "parental_education_level", "sleep_hours", "exam_score"]

/-- The primary-table query template of KPI 4 (kpi_calculator.py lines
226-233). -/
def kpi4_primary_base : String :=
  "\n            SELECT \n                sleep_hours,\n                exam_score\n            FROM student_habits_performance\n            WHERE sleep_hours IS NOT NULL \n                AND exam_score IS NOT NULL\n            "

/-- The secondary-table column list of KPI 4 (kpi_calculator.py line 241). -/
def kpi4_secondary_cols : List String :=
  ["Gender", "Parental_Education_Level", "Sleep_Hours", "Exam_Score"]

/-- The secondary-table query template of KPI 4 (kpi_calculator.py lines
242-249). -/
def kpi4_secondary_base : String :=
  "\n                SELECT \n                    \"Sleep_Hours\" as sleep_hours,\n                    \"Exam_Score\" as exam_score\n                FROM student_performance_factors\n                WHERE \"Sleep_Hours\" IS NOT NULL \n                    AND \"Exam_Score\" IS NOT NULL\n                "

/-- The primary query of KPI 4 (kpi_calculator.py lines 235-236). -/
def kpi4_primary_query (filters : FilterSpec) : String :=
  apply_filters_to_query filters kpi4_primary_base kpi4_primary_cols
    ++ " ORDER BY sleep_hours"

/-- The secondary query of KPI 4 (kpi_calculator.py lines 250-251). -/
def kpi4_secondary_query (filters : FilterSpec) : String :=
  apply_filters_to_query filters kpi4_secondary_base kpi4_secondary_cols
    ++ " ORDER BY \"Sleep_Hours\""

/-- The shared two-phase control flow of the four KPI methods
(kpi_calculator.py lines 77-256), over an abstract store-execution
function `exec` standing for `DatabaseManager.execute_query` (which
either returns a DataFrame or raises a RuntimeError, modelled as
`Except`): run the primary query; on an exception, wrap the message in
the KPI failure message (the try/except at the top of each method); on
an empty result, run the secondary query under the same wrapping; a
non-empty primary result — or whatever the secondary attempt produces —
is returned. -/
def kpi_two_phase (failMsg : String) (exec : String → Except String Frame)
    (primaryQuery secondaryQuery : String) : Except String Frame :=
  match exec primaryQuery with
  | .error e => .error (failMsg ++ e)
  | .ok result =>
    if result.isEmpty then
      match exec secondaryQuery with
      | .error e => .error (failMsg ++ e)
      | .ok result2 => .ok result2
    else .ok result

/-- `KPICalculator.calculate_kpi_1_scores_by_group` (kpi_calculator.py
lines 77-119). -/
def calculate_kpi_1_scores_by_group (exec : String → Except String Frame)
    (filters : FilterSpec) : Except String Frame :=
  kpi_two_phase "Failed to calculate KPI 1: " exec
    (kpi1_primary_query filters) (kpi1_secondary_query filters)

/-- `KPICalculator.calculate_kpi_2_study_correlation` (kpi_calculator.py
lines 121-164). -/
def calculate_kpi_2_study_correlation (exec : String → Except String Frame)
    (filters : FilterSpec) : Except String Frame :=
  kpi_two_phase "Failed to calculate KPI 2: " exec
    (kpi2_primary_query filters) (kpi2_secondary_query filters)

/-- `KPICalculator.calculate_kpi_3_attendance_impact` (kpi_calculator.py
lines 166-211). -/
def calculate_kpi_3_attendance_impact (exec : String → Except String Frame)
    (filters : FilterSpec) : Except String Frame :=
  kpi_two_phase "Failed to calculate KPI 3: " exec
    (kpi3_primary_query filters) (kpi3_secondary_query filters)

/-- `KPICalculator.calculate_kpi_4_sleep_performance` (kpi_calculator.py
lines 213-256). -/
def calculate_kpi_4_sleep_performance (exec : String → Except String Frame)
    (filters : FilterSpec) : Except String Frame :=
  kpi_two_phase "Failed to calculate KPI 4: " exec
    (kpi4_primary_query filters) (kpi4_secondary_query filters)

/-- Whether an `Except` result is a success. -/
def exceptIsOk : Except String Frame → Bool
  | .ok _ => true
  | .error _ => false

/-- The shape of a pandas DataFrame as far as
`DatabaseManager.import_data` inspects it: its row and column counts. -/
structure PyDataFrame where
  rows : Nat
  cols : Nat
deriving DecidableEq

/-- pandas `DataFrame.empty`: true when either axis has length zero. -/
def dfEmpty (df : PyDataFrame) : Bool := df.rows == 0 || df.cols == 0

/-- Python `str.isalnum`, modelled on its ASCII behaviour: non-empty and
every character in `[A-Za-z0-9]`.  Python additionally accepts Unicode
alphanumerics; theorems that depend on this function therefore restrict
the name to ASCII characters, on which the model is exact. -/
def py_isalnum (s : String) : Bool := !s.toList.isEmpty && s.toList.all Char.isAlphanum

/-- Python `s.replace("_", "")`: drop every underscore. -/
def strip_underscores (s : String) : String :=
  String.mk (s.toList.filter (fun c => c != '_'))

/-- Whether every character of a string is ASCII. -/
def ascii_only (s : String) : Bool := s.toList.all (fun c => c.toNat < 128)

/-- The outcome of the two validation checks at the top of
`DatabaseManager.import_data`: which error is raised, or that control
proceeds to the actual store import. -/
inductive ImportOutcome where
  | emptyInput : ImportOutcome
  | invalidIdentifier : ImportOutcome
  | proceed : ImportOutcome
deriving DecidableEq

/-- The validation prologue of `DatabaseManager.import_data`
(database_manager.py lines 54-58): an empty DataFrame raises
`ValueError("Cannot import empty DataFrame")`; then a falsy (empty) name
or a name whose underscore-stripped form fails `isalnum` raises
`ValueError("Invalid table name: ...")`; otherwise the import itself
runs (its store interaction is outside this model). -/
def import_data_check (df : PyDataFrame) (tableName : String) : ImportOutcome :=
  if dfEmpty df then .emptyInput
  else if tableName == "" || !py_isalnum (strip_underscores tableName) then .invalidIdentifier
  else .proceed

/-- Modelled from the spec (§6) and the Latin-1 standard, since the
codec is part of the Python runtime, not of this repository:
`bytes.decode("latin-1")` maps each byte to the Unicode code point of
the same value and never fails. -/
def latin1_decode (fileBytes : List (Fin 256)) : Option String :=
  some (String.mk (fileBytes.map (fun b => Char.ofNat b.val)))

/-- `handle_encoding_error` (file_manager.py lines 144-167): try
utf-8, latin-1, iso-8859-1, cp1252 in order and return the first
successful decoding; raise `FileEncodingError` when all four fail.  The
utf-8, iso-8859-1 and cp1252 codecs are Python-runtime collaborators and
are taken as arbitrary functions; latin-1 — the second attempt — is the
concrete total decoder above. -/
def handle_encoding_error
    (utf8_decode iso8859_decode cp1252_decode : List (Fin 256) → Option String)
    (fileBytes : List (Fin 256)) : Except String String :=
  match utf8_decode fileBytes with
  | some s => .ok s
  | none =>
    match latin1_decode fileBytes with
    | some s => .ok s
    | none =>
      match iso8859_decode fileBytes with
      | some s => .ok s
      | none =>
        match cp1252_decode fileBytes with
        | some s => .ok s
        | none =>
          .error "Could not decode file with any supported encoding: utf-8, latin-1, iso-8859-1, cp1252"

/-- A concrete non-empty secondary-table aggregation result used by the
store instances below. -/
def demo_rows : Frame := [[.sStr "Male", .sInt 80, .sInt 2], [.sStr "Female", .sInt 80, .sInt 1]]

/-- Modelled from the spec: a Tabular Store session (§4.1) in which the
primary table `student_habits_performance` was never imported — per the
store contract, a query naming a missing table fails with a StoreIOError,
surfaced by `DatabaseManager.execute_query` as
`RuntimeError("Query execution failed: ...")` — while the secondary
table `student_performance_factors` is present and populated, so the
aggregate queries against it succeed with a non-empty result. -/
def exec_missing_primary (q : String) : Except String Frame :=
  if strHasSub q "student_habits_performance" then
    .error "Query execution failed: Catalog Error: Table with name student_habits_performance does not exist!"
  else if strHasSub q "student_performance_factors" then .ok demo_rows
  else .error "Query execution failed: Catalog Error: unknown table"

/-- Modelled from the spec: a Tabular Store session (§4.1) in which the
primary table `student_habits_performance` is present but holds no rows
— every aggregate query against it succeeds with an empty result — and
the secondary table `student_performance_factors` is populated. -/
def exec_empty_primary (q : String) : Except String Frame :=
  if strHasSub q "student_habits_performance" then .ok []
  else if strHasSub q "student_performance_factors" then .ok demo_rows
  else .error "Query execution failed: Catalog Error: unknown table"

set_option maxRecDepth 100000

/-- The leading emptiness guard of `build_filter_query` is redundant:
the function is determined by its emitted condition list. -/
theorem build_filter_query_eq (filters : FilterSpec) :
    build_filter_query filters =
      (if (filters.filterMap fun kv => bfq_condition kv.1 kv.2).isEmpty then ""
       else pyJoin " AND " (filters.filterMap fun kv => bfq_condition kv.1 kv.2)) := by
  cases filters <;> simp [build_filter_query]

/-- The leading emptiness guard of `apply_filters_to_query` is
redundant: the function is determined by its emitted condition list. -/
theorem apply_filters_to_query_eq (filters : FilterSpec) (baseQuery : String)
    (availableColumns : List String) :
    apply_filters_to_query filters baseQuery availableColumns =
      (if (kpiConditions filters availableColumns).isEmpty then baseQuery
       else if strHasSub (pyUpper baseQuery) "WHERE" then
         baseQuery ++ " AND " ++ pyJoin " AND " (kpiConditions filters availableColumns)
       else
         baseQuery ++ " WHERE " ++ pyJoin " AND " (kpiConditions filters availableColumns)) := by
  cases filters <;> simp [apply_filters_to_query, kpiConditions]

/-- `validate_step` only ever appends to the error accumulator. -/
theorem validate_step_append (errors : List String) (kv : String × PyVal) :
    ∃ t, validate_step errors kv = errors ++ t := by
  rcases kv with ⟨k, v⟩
  match v with
  | .scalar .sNone => exact ⟨[], by simp [validate_step]⟩
  | .scalar (.sStr s) => exact ⟨[], by simp [validate_step]⟩
  | .scalar (.sInt n) => exact ⟨[], by simp [validate_step]⟩
  | .scalar (.sBool b) => exact ⟨[], by simp [validate_step]⟩
  | .list xs =>
      unfold validate_step
      dsimp only
      split
      · exact ⟨_, rfl⟩
      · exact ⟨[], by simp⟩
  | .tup [] => exact ⟨_, rfl⟩
  | .tup [a] => exact ⟨_, rfl⟩
  | .tup [a, b] =>
      unfold validate_step
      dsimp only
      split
      · exact ⟨_, rfl⟩
      · exact ⟨[], by simp⟩
  | .tup (a :: b :: c :: rest) => exact ⟨_, rfl⟩

/-- The error fold of `validate_filters` preserves whatever is already
in the accumulator. -/
theorem validate_errors_prefix (filters : FilterSpec) (errors : List String) :
    ∃ t, filters.foldl validate_step errors = errors ++ t := by
  induction filters generalizing errors with
  | nil => exact ⟨[], by simp⟩
  | cons kv fs ih =>
      obtain ⟨u, hu⟩ := validate_step_append errors kv
      obtain ⟨t, ht⟩ := ih (errors ++ u)
      exact ⟨u ++ t, by simp [hu, ht]⟩

/-- `validate_filters` reports invalid as soon as its error list is
non-empty. -/
theorem validate_fst_false (filters : FilterSpec)
    (h : filters.foldl validate_step [] ≠ []) : (validate_filters filters).1 = false := by
  simp only [validate_filters]
  simpa using h

/-- A successful case-insensitive lookup in `resolve_filter_key`: when
some available column lowercases to the key, the resolved column is a
member of the list with the same lowercasing. -/
theorem resolve_filter_key_found (availableColumns : List String) (key : String)
    (h : ∃ c ∈ availableColumns, pyLower c = pyLower key) :
    ∃ c, resolve_filter_key availableColumns key = some c ∧
      c ∈ availableColumns ∧ pyLower c = pyLower key := by
  obtain ⟨c0, hc0, hlow⟩ := h
  have hne : availableColumns.isEmpty = false := by
    cases availableColumns with
    | nil => cases hc0
    | cons a l => rfl
  have hsome : (availableColumns.find? (fun col => pyLower col == pyLower key)).isSome := by
    rw [List.find?_isSome]
    exact ⟨c0, hc0, by simp [hlow]⟩
  obtain ⟨c, hc⟩ := Option.isSome_iff_exists.mp hsome
  refine ⟨c, ?_, List.mem_of_find?_eq_some hc, ?_⟩
  · simp [resolve_filter_key, hne, hc]
  · have := List.find?_some hc
    simpa using this

/-- A key with no case-insensitive match among a non-empty column list
contributes no condition in the KPI filter injector. -/
theorem kpi_condition_none_of_unresolved (availableColumns : List String) (key : String)
    (v : PyVal) (h : resolve_filter_key availableColumns key = none) :
    kpi_condition availableColumns key v = none := by
  match v with
  | .scalar .sNone => rfl
  | .scalar (.sStr s) => simp [kpi_condition, h]
  | .scalar (.sInt n) => simp [kpi_condition, h]
  | .scalar (.sBool b) => simp [kpi_condition, h]
  | .tup xs => simp [kpi_condition, h]
  | .list xs => simp [kpi_condition, h]

/-- C7 (confirmed): the Pearson-correlation companion function
`calculate_correlation_coefficient` returns exactly 0.0 whenever either
of its two input sequences has fewer than 2 elements, as a defined
fallback rather than an error. -/
theorem C7_correlation_degenerate_zero (x y : List Real)
    (h : x.length < 2 ∨ y.length < 2) :
    calculate_correlation_coefficient x y = 0 := by
  simp [calculate_correlation_coefficient, h]

/-- Witness for C7: two single-element sequences satisfy the degenerate
guard and the function returns 0.0 on them. -/
theorem C7_witness :
    (([(1 : Real)].length < 2 ∨ ([(2 : Real)].length < 2)) ∧
      calculate_correlation_coefficient [(1 : Real)] [(2 : Real)] = 0) :=
  ⟨Or.inl (by decide), C7_correlation_degenerate_zero [(1 : Real)] [(2 : Real)] (Or.inl (by decide))⟩

/-- C8 (confirmed): for every bytes input the encoding-fallback decoder
`handle_encoding_error` returns a decoded string and never reaches the
`FileEncodingError` branch, whatever the utf-8, iso-8859-1 and cp1252
codecs do, because the latin-1 attempt — tried second — decodes every
byte sequence. -/
theorem C8_encoding_fallback_total
    (utf8_decode iso8859_decode cp1252_decode : List (Fin 256) → Option String)
    (fileBytes : List (Fin 256)) :
    (∃ s, handle_encoding_error utf8_decode iso8859_decode cp1252_decode fileBytes = .ok s)
    ∧ (latin1_decode fileBytes).isSome = true := by
  refine ⟨?_, rfl⟩
  unfold handle_encoding_error
  cases h : utf8_decode fileBytes with
  | some s => exact ⟨s, rfl⟩
  | none => exact ⟨_, rfl⟩

/-- C9 (confirmed): in `build_filter_query` a boolean filter value is
dispatched to the numeric-equality arm — Python bool is an int subclass,
so `isinstance(value, (int, float))` catches it first — emitting
`col = True` or `col = False` without quotes; the dedicated boolean arm
of the chain is selected for no input whatsoever. -/
theorem C9_bool_branch_unreachable :
    (∀ v, (bfq_branch v == BFQBranch.boolEq) = false)
    ∧ (∀ b, bfq_branch (PyVal.scalar (.sBool b)) = BFQBranch.numEq)
    ∧ (∀ k b, build_filter_query [(k, PyVal.scalar (.sBool b))]
        = k ++ " = " ++ (if b then "True" else "False")) := by
  refine ⟨?_, fun b => rfl, fun k b => rfl⟩
  intro v
  match v with
  | .scalar .sNone => rfl
  | .scalar (.sStr s) => rfl
  | .scalar (.sInt n) => rfl
  | .scalar (.sBool b) => rfl
  | .list [] => rfl
  | .list (x :: xs) =>
      have h : bfq_branch (.list (x :: xs)) = .inList := by
        simp [bfq_branch, py_is_none, py_is_list, pyLen]
      rw [h]; rfl
  | .tup [] => rfl
  | .tup [a] => rfl
  | .tup [a, b] => rfl
  | .tup (a :: b :: c :: rest) =>
      have h : bfq_branch (.tup (a :: b :: c :: rest)) = .unmatched := by
        simp [bfq_branch, py_is_none, py_is_list, py_is_tuple, py_is_str,
          py_is_int_or_float, py_is_bool, pyLen]
      rw [h]; rfl

/-- C10 (confirmed): a filter entry whose value is None is skipped
uniformly by all three filter-processing operations: it contributes no
predicate in `build_filter_query`, no predicate in the KPI-path filter
injector `apply_filters_to_query`, and no error in `validate_filters`. -/
theorem C10_none_skipped_uniformly (before after : FilterSpec) (key : String)
    (baseQuery : String) (availableColumns : List String) :
    build_filter_query (before ++ (key, PyVal.scalar .sNone) :: after)
      = build_filter_query (before ++ after)
    ∧ apply_filters_to_query (before ++ (key, PyVal.scalar .sNone) :: after)
        baseQuery availableColumns
      = apply_filters_to_query (before ++ after) baseQuery availableColumns
    ∧ validate_filters (before ++ (key, PyVal.scalar .sNone) :: after)
      = validate_filters (before ++ after) := by
  have hbfq : bfq_condition key (PyVal.scalar .sNone) = none := rfl
  have hkpi : kpi_condition availableColumns key (PyVal.scalar .sNone) = none := rfl
  have hval : ∀ errs, validate_step errs (key, PyVal.scalar .sNone) = errs := fun _ => rfl
  refine ⟨?_, ?_, ?_⟩
  · rw [build_filter_query_eq, build_filter_query_eq, List.filterMap_append,
      List.filterMap_append, List.filterMap_cons]
    rfl
  · rw [apply_filters_to_query_eq, apply_filters_to_query_eq]
    unfold kpiConditions
    rw [List.filterMap_append, List.filterMap_append, List.filterMap_cons]
    rfl
  · unfold validate_filters
    rw [List.foldl_append, List.foldl_append, List.foldl_cons, hval]

/-- C1 (corrected): each of the four KPI operations attempts its
aggregation against the primary table first and retries against the
secondary table when — and only when — the primary attempt returns an
EMPTY RESULT SET.  When the primary table is present but yields no rows
(with no active filters) and the secondary table is present and
populated, every KPI method returns the non-empty result of the
secondary query.  When the primary table is ABSENT, the primary query
raises instead of returning an empty result, so the fallback is never
reached: the original claim fails there (see the counterexample). -/
theorem C1_fallback_on_empty_primary (exec : String → Except String Frame)
    (rows : Frame) (hrows : rows.isEmpty = false)
    (h1p : exec (kpi1_primary_query []) = .ok [])
    (h1s : exec (kpi1_secondary_query []) = .ok rows)
    (h2p : exec (kpi2_primary_query []) = .ok [])
    (h2s : exec (kpi2_secondary_query []) = .ok rows)
    (h3p : exec (kpi3_primary_query []) = .ok [])
    (h3s : exec (kpi3_secondary_query []) = .ok rows)
    (h4p : exec (kpi4_primary_query []) = .ok [])
    (h4s : exec (kpi4_secondary_query []) = .ok rows) :
    rows.isEmpty = false
    ∧ calculate_kpi_1_scores_by_group exec [] = .ok rows
    ∧ calculate_kpi_2_study_correlation exec [] = .ok rows
    ∧ calculate_kpi_3_attendance_impact exec [] = .ok rows
    ∧ calculate_kpi_4_sleep_performance exec [] = .ok rows := by
  refine ⟨hrows, ?_, ?_, ?_, ?_⟩
  · simp [calculate_kpi_1_scores_by_group, kpi_two_phase, h1p, h1s]
  · simp [calculate_kpi_2_study_correlation, kpi_two_phase, h2p, h2s]
  · simp [calculate_kpi_3_attendance_impact, kpi_two_phase, h3p, h3s]
  · simp [calculate_kpi_4_sleep_performance, kpi_two_phase, h4p, h4s]

/-- Witness for C1: on the concrete store with a present-but-empty
primary table and a populated secondary table, all four KPI operations
return the non-empty secondary result. -/
theorem C1_witness :
    demo_rows.isEmpty = false
    ∧ exec_empty_primary (kpi1_primary_query []) = .ok []
    ∧ exec_empty_primary (kpi1_secondary_query []) = .ok demo_rows
    ∧ calculate_kpi_1_scores_by_group exec_empty_primary [] = .ok demo_rows
    ∧ calculate_kpi_2_study_correlation exec_empty_primary [] = .ok demo_rows
    ∧ calculate_kpi_3_attendance_impact exec_empty_primary [] = .ok demo_rows
    ∧ calculate_kpi_4_sleep_performance exec_empty_primary [] = .ok demo_rows := by
  have h := C1_fallback_on_empty_primary exec_empty_primary demo_rows rfl
    rfl rfl rfl rfl rfl rfl rfl rfl
  exact ⟨h.1, rfl, rfl, h.2.1, h.2.2.1, h.2.2.2.1, h.2.2.2.2⟩

/-- Counterexample for C1 as stated: on the concrete store in which the
primary table `student_habits_performance` is absent — so every query
naming it fails with a store error, as the store contract specifies for
a missing table — while the secondary table is present and populated
(its aggregate queries return the non-empty `demo_rows`), all four KPI
operations raise their KPI failure error instead of returning a
non-empty result sourced from the secondary schema. -/
theorem C1_absent_primary_counterexample :
    exec_missing_primary (kpi1_secondary_query []) = .ok demo_rows
    ∧ exec_missing_primary (kpi2_secondary_query []) = .ok demo_rows
    ∧ exec_missing_primary (kpi3_secondary_query []) = .ok demo_rows
    ∧ exec_missing_primary (kpi4_secondary_query []) = .ok demo_rows
    ∧ demo_rows.isEmpty = false
    ∧ calculate_kpi_1_scores_by_group exec_missing_primary []
        = .error "Failed to calculate KPI 1: Query execution failed: Catalog Error: Table with name student_habits_performance does not exist!"
    ∧ exceptIsOk (calculate_kpi_1_scores_by_group exec_missing_primary []) = false
    ∧ exceptIsOk (calculate_kpi_2_study_correlation exec_missing_primary []) = false
    ∧ exceptIsOk (calculate_kpi_3_attendance_impact exec_missing_primary []) = false
    ∧ exceptIsOk (calculate_kpi_4_sleep_performance exec_missing_primary []) = false :=
  ⟨rfl, rfl, rfl, rfl, rfl, rfl, rfl, rfl, rfl, rfl⟩

/-- C4 (confirmed): `apply_filters_to_query` returns the base query
unchanged when the filter specification is empty, and also when every
attribute in the filter specification has no case-insensitive match in
the provided (non-empty) known-column set: such entries are skipped
silently and never cause an error. -/
theorem C4_unknown_filters_skipped :
    (∀ baseQuery availableColumns,
      apply_filters_to_query [] baseQuery availableColumns = baseQuery)
    ∧ (∀ filters baseQuery availableColumns, availableColumns ≠ [] →
        (∀ kv ∈ filters, ∀ c ∈ availableColumns, pyLower c ≠ pyLower kv.1) →
        apply_filters_to_query filters baseQuery availableColumns = baseQuery) := by
  constructor
  · intro baseQuery availableColumns
    rfl
  · intro filters baseQuery availableColumns hcols habsent
    have hcols2 : availableColumns.isEmpty = false := by
      cases availableColumns with
      | nil => exact absurd rfl hcols
      | cons a l => rfl
    have hempty : kpiConditions filters availableColumns = [] := by
      rw [kpiConditions, List.filterMap_eq_nil_iff]
      intro kv hkv
      apply kpi_condition_none_of_unresolved
      rw [resolve_filter_key, hcols2]
      simp only [Bool.false_eq_true, if_false, List.find?_eq_none]
      intro c hc
      simp only [beq_iff_eq]
      exact habsent kv hkv c hc
    rw [apply_filters_to_query_eq, hempty]
    rfl

/-- Witness for C4: a filter whose attribute appears in neither known
column leaves the concrete base query untouched. -/
theorem C4_witness :
    (["age", "gender"] ≠ ([] : List String))
    ∧ (∀ kv ∈ [("unknown_attr", PyVal.scalar (.sStr "X"))],
        ∀ c ∈ ["age", "gender"], pyLower c ≠ pyLower kv.1)
    ∧ apply_filters_to_query [("unknown_attr", PyVal.scalar (.sStr "X"))]
        "SELECT * FROM students" ["age", "gender"] = "SELECT * FROM students" := by
  have habs : ∀ kv ∈ [("unknown_attr", PyVal.scalar (PyScalar.sStr "X"))],
      ∀ c ∈ ["age", "gender"], pyLower c ≠ pyLower kv.1 := by
    intro kv hkv c hc
    fin_cases hkv
    fin_cases hc <;> decide
  exact ⟨by decide, habs,
    C4_unknown_filters_skipped.2 [("unknown_attr", PyVal.scalar (.sStr "X"))]
      "SELECT * FROM students" ["age", "gender"] (by decide) habs⟩

/-- C2 (confirmed): injecting the filter `age ↦ (18, 25)` into any base
query with any known-column set containing the age column produces a
query ending in the quoted-identifier inclusive-range predicate
`"age" BETWEEN 18 AND 25` (over the column resolved for `age`, with
both bounds present); and, in general, every non-empty emitted
condition list is attached to the base query with the keyword `WHERE`
when the base query contains no existing `WHERE` (case-insensitive
search over the uppercased query), and with `AND` otherwise. -/
theorem C2_age_range_and_where_attachment :
    (∀ baseQuery availableColumns, "age" ∈ availableColumns →
      ∃ c, resolve_filter_key availableColumns "age" = some c ∧ pyLower c = "age" ∧
        apply_filters_to_query [("age", PyVal.tup [.sInt 18, .sInt 25])]
            baseQuery availableColumns
          = baseQuery ++ (if strHasSub (pyUpper baseQuery) "WHERE" then " AND " else " WHERE ")
              ++ ("\"" ++ c ++ "\" BETWEEN 18 AND 25"))
    ∧ (∀ filters baseQuery availableColumns,
        kpiConditions filters availableColumns ≠ [] →
        apply_filters_to_query filters baseQuery availableColumns
          = baseQuery ++ (if strHasSub (pyUpper baseQuery) "WHERE" then " AND " else " WHERE ")
              ++ pyJoin " AND " (kpiConditions filters availableColumns)) := by
  have general : ∀ filters baseQuery availableColumns,
      kpiConditions filters availableColumns ≠ [] →
      apply_filters_to_query filters baseQuery availableColumns
        = baseQuery ++ (if strHasSub (pyUpper baseQuery) "WHERE" then " AND " else " WHERE ")
            ++ pyJoin " AND " (kpiConditions filters availableColumns) := by
    intro filters baseQuery availableColumns hne
    rw [apply_filters_to_query_eq, if_neg]
    · split
      · rfl
      · rfl
    · simpa using hne
  refine ⟨?_, general⟩
  intro baseQuery availableColumns hmem
  obtain ⟨c, hres, hcmem, hlow⟩ := resolve_filter_key_found availableColumns "age"
    ⟨"age", hmem, rfl⟩
  have hlow2 : pyLower c = "age" := by
    rw [hlow]; decide
  refine ⟨c, hres, hlow2, ?_⟩
  have hcond : kpiConditions [("age", PyVal.tup [.sInt 18, .sInt 25])] availableColumns
      = ["\"" ++ c ++ "\" BETWEEN 18 AND 25"] := by
    have h18 : pyScalarStr (PyScalar.sInt 18) = "18" := rfl
    have h25 : pyScalarStr (PyScalar.sInt 25) = "25" := rfl
    simp only [kpiConditions, kpi_condition, hres, List.filterMap_cons, List.filterMap_nil,
      h18, h25, String.append_assoc]
    rfl
  rw [general _ _ _ (by rw [hcond]; exact fun h => List.noConfusion h), hcond]
  rfl

/-- Witness for C2: on the concrete base query `SELECT * FROM students`
(which contains no WHERE) and known columns `["age", "gender"]`, the
injected age-range filter is attached with WHERE and carries both
bounds. -/
theorem C2_witness :
    ("age" ∈ ["age", "gender"])
    ∧ (∃ c, resolve_filter_key ["age", "gender"] "age" = some c ∧ pyLower c = "age" ∧
        apply_filters_to_query [("age", PyVal.tup [.sInt 18, .sInt 25])]
            "SELECT * FROM students" ["age", "gender"]
          = "SELECT * FROM students"
              ++ (if strHasSub (pyUpper "SELECT * FROM students") "WHERE" then " AND " else " WHERE ")
              ++ ("\"" ++ c ++ "\" BETWEEN 18 AND 25")) :=
  ⟨by decide,
    C2_age_range_and_where_attachment.1 "SELECT * FROM students" ["age", "gender"] (by decide)⟩

/-- C5 (confirmed): schema resolution in the KPI filter injector is
case-insensitive — a filter attribute matches a known column differing
only in letter case — and the emitted predicate uses the column name
exactly as cased in the known-column set; when no known-column set is
provided, the attribute is used verbatim. -/
theorem C5_case_insensitive_resolution :
    (∀ availableColumns key, (∃ c ∈ availableColumns, pyLower c = pyLower key) →
      ∃ c, resolve_filter_key availableColumns key = some c ∧
        c ∈ availableColumns ∧ pyLower c = pyLower key)
    ∧ (∀ availableColumns key c s, resolve_filter_key availableColumns key = some c →
        kpiConditions [(key, PyVal.scalar (.sStr s))] availableColumns
          = ["\"" ++ c ++ "\" = \x27" ++ s ++ "\x27"])
    ∧ (∀ key s, kpiConditions [(key, PyVal.scalar (.sStr s))] []
        = ["\"" ++ key ++ "\" = \x27" ++ s ++ "\x27"]) := by
  refine ⟨resolve_filter_key_found, ?_, ?_⟩
  · intro availableColumns key c s hres
    simp [kpiConditions, kpi_condition, hres]
  · intro key s
    simp [kpiConditions, kpi_condition, resolve_filter_key]

/-- Witness for C5: the filter key `Gender` resolves to the known column
`gender` and the emitted predicate uses the lowercase column; the
reversed casing resolves in the same way; with no known columns the key
is used verbatim. -/
theorem C5_witness :
    (∃ c ∈ ["gender"], pyLower c = pyLower "Gender")
    ∧ (∃ c, resolve_filter_key ["gender"] "Gender" = some c ∧
        c ∈ ["gender"] ∧ pyLower c = pyLower "Gender")
    ∧ (∃ c, resolve_filter_key ["Gender"] "gender" = some c ∧
        c ∈ ["Gender"] ∧ pyLower c = pyLower "gender")
    ∧ kpiConditions [("Gender", PyVal.scalar (.sStr "Male"))] ["gender"]
        = ["\"gender\" = \x27Male\x27"] :=
  ⟨⟨"gender", by decide, by decide⟩,
    C5_case_insensitive_resolution.1 ["gender"] "Gender" ⟨"gender", by decide, by decide⟩,
    C5_case_insensitive_resolution.1 ["Gender"] "gender" ⟨"Gender", by decide, by decide⟩,
    C5_case_insensitive_resolution.2.1 ["gender"] "Gender" "gender" "Male" (by decide)⟩

/-- The character list underlying a string literally built from one. -/
theorem string_mk_toList (l : List Char) : (String.mk l).toList = l := rfl

/-- C3 (corrected): `import_data` fails with the empty-input error
whenever the dataset has zero rows, and fails with the
invalid-identifier error whenever the (ASCII) name contains a character
outside `[A-Za-z0-9_]`; a name matching `[A-Za-z0-9_]+` passes the
identifier check provided it contains at least one non-underscore
character.  A name consisting solely of underscores matches the regex
yet is rejected — the check strips underscores before applying isalnum,
and isalnum is false on the resulting empty string — so the original
claim that every `[A-Za-z0-9_]+` name passes is refuted by the
counterexample below. -/
theorem C3_import_checks :
    (∀ df tableName, df.rows = 0 → import_data_check df tableName = .emptyInput)
    ∧ (∀ df tableName, dfEmpty df = false → ascii_only tableName = true →
        (∃ ch ∈ tableName.toList, ¬(Char.isAlphanum ch ∨ ch = '_')) →
        import_data_check df tableName = .invalidIdentifier)
    ∧ (∀ df tableName, dfEmpty df = false →
        tableName.toList.all (fun ch => Char.isAlphanum ch || ch == '_') = true →
        (∃ ch ∈ tableName.toList, ch ≠ '_') →
        import_data_check df tableName = .proceed) := by
  refine ⟨?_, ?_, ?_⟩
  · intro df tableName hrows
    simp [import_data_check, dfEmpty, hrows]
  · intro df tableName hdf hascii hbad
    obtain ⟨ch, hch, hbad⟩ := hbad
    have hchna : Char.isAlphanum ch = false := by
      cases hna : Char.isAlphanum ch
      · rfl
      · exact absurd (Or.inl hna) hbad
    have hchne : ch ≠ '_' := fun h => hbad (Or.inr h)
    have hmemf : ch ∈ tableName.toList.filter (fun c => c != '_') :=
      List.mem_filter.mpr ⟨hch, by simp [hchne]⟩
    have hallf : (tableName.toList.filter (fun c => c != '_')).all Char.isAlphanum = false := by
      cases hall : (tableName.toList.filter (fun c => c != '_')).all Char.isAlphanum
      · rfl
      · rw [List.all_eq_true] at hall
        have := hall ch hmemf
        rw [hchna] at this
        cases this
    have hpy : py_isalnum (strip_underscores tableName) = false := by
      unfold py_isalnum strip_underscores
      rw [string_mk_toList, hallf]
      simp
    simp [import_data_check, hdf, hpy]
  · intro df tableName hdf hall hsome
    obtain ⟨ch, hch, hchne⟩ := hsome
    have hne : (tableName == "") = false := by
      cases hn : tableName == ""
      · rfl
      · have : tableName = "" := eq_of_beq hn
        subst this
        simp at hch
    have hmemf : ch ∈ tableName.toList.filter (fun c => c != '_') :=
      List.mem_filter.mpr ⟨hch, by simp [hchne]⟩
    have hpy : py_isalnum (strip_underscores tableName) = true := by
      unfold py_isalnum strip_underscores
      rw [string_mk_toList, Bool.and_eq_true]
      constructor
      · cases hf : tableName.toList.filter (fun c => c != '_') with
        | nil => rw [hf] at hmemf; simp at hmemf
        | cons a l => rfl
      · rw [List.all_eq_true]
        intro x hx
        obtain ⟨hxmem, hxne⟩ := List.mem_filter.mp hx
        have := (List.all_eq_true).mp hall x hxmem
        rcases Bool.or_eq_true_iff.mp this with h | h
        · exact h
        · rw [beq_iff_eq] at h
          subst h
          simp at hxne
    simp [import_data_check, hdf, hne, hpy]

/-- Counterexample for the universally-passing part of C3 as stated: the
name `_` matches `[A-Za-z0-9_]+` (it is non-empty and every character is
alphanumeric-or-underscore), the dataset is non-empty, yet the import
check rejects it with the invalid-identifier error. -/
theorem C3_underscore_counterexample :
    "_".toList.all (fun ch => Char.isAlphanum ch || ch == '_') = true
    ∧ ("_" : String) ≠ ""
    ∧ dfEmpty ⟨5, 4⟩ = false
    ∧ import_data_check ⟨5, 4⟩ "_" = .invalidIdentifier :=
  ⟨by decide, by decide, rfl, rfl⟩

/-- Witness for C3: a zero-row dataset fails the empty check; the test
suite name `invalid-table-name!` (which contains `-`) fails the
identifier check on a non-empty dataset; the name
`student_habits_performance` passes it. -/
theorem C3_witness :
    import_data_check ⟨0, 3⟩ "students" = .emptyInput
    ∧ (dfEmpty ⟨5, 4⟩ = false ∧ ascii_only "invalid-table-name!" = true
        ∧ import_data_check ⟨5, 4⟩ "invalid-table-name!" = .invalidIdentifier)
    ∧ import_data_check ⟨5, 4⟩ "student_habits_performance" = .proceed :=
  ⟨C3_import_checks.1 ⟨0, 3⟩ "students" rfl,
    ⟨rfl, by decide,
      C3_import_checks.2.1 ⟨5, 4⟩ "invalid-table-name!" rfl (by decide)
        ⟨'-', by decide, by decide⟩⟩,
    C3_import_checks.2.2 ⟨5, 4⟩ "student_habits_performance" rfl (by decide)
      ⟨'s', by decide, by decide⟩⟩

/-- The error fold of `validate_filters` is the identity when every
entry of the specification passes its per-entry checks. -/
theorem validate_foldl_id (filters : FilterSpec)
    (h : ∀ kv ∈ filters, ∀ errs, validate_step errs kv = errs) :
    ∀ errs, filters.foldl validate_step errs = errs := by
  induction filters with
  | nil => intro errs; rfl
  | cons kv fs ih =>
      intro errs
      rw [List.foldl_cons, h kv (List.mem_cons_self kv fs)]
      exact ih (fun kv2 h2 errs2 => h kv2 (List.mem_cons_of_mem kv h2) errs2) errs

/-- C6 (confirmed): `validate_filters` rejects every FilterSpec
containing an empty-list entry, rejects every FilterSpec containing a
two-element range entry with lo > hi, and accepts a FilterSpec whose
entries are ranges with lo ≤ hi; the concrete examples of the claim
behave exactly so, and the injection functions themselves perform no
such validation — they happily emit a malformed range predicate and
silently drop an empty list. -/
theorem C6_validate_filters_contract :
    (∀ filters key, (key, PyVal.list []) ∈ filters → (validate_filters filters).1 = false)
    ∧ (∀ filters key (lo hi : Int), (key, PyVal.tup [.sInt lo, .sInt hi]) ∈ filters →
        hi < lo → (validate_filters filters).1 = false)
    ∧ (∀ filters,
        (∀ kv ∈ filters, ∃ lo hi : Int, kv.2 = PyVal.tup [.sInt lo, .sInt hi] ∧ lo ≤ hi) →
        (validate_filters filters).1 = true)
    ∧ (validate_filters [("a", PyVal.list [])]).1 = false
    ∧ (validate_filters [("a", PyVal.tup [.sInt 10, .sInt 5])]).1 = false
    ∧ (validate_filters [("a", PyVal.tup [.sInt 5, .sInt 10])]).1 = true
    ∧ build_filter_query [("a", PyVal.tup [.sInt 10, .sInt 5])] = "a BETWEEN 10 AND 5"
    ∧ build_filter_query [("a", PyVal.list [])] = ""
    ∧ apply_filters_to_query [("age", PyVal.tup [.sInt 10, .sInt 5])] "SELECT * FROM t" []
        = "SELECT * FROM t WHERE \"age\" BETWEEN 10 AND 5" := by
  refine ⟨?_, ?_, ?_, by decide, by decide, by decide, rfl, rfl, rfl⟩
  · intro filters key hmem
    obtain ⟨s, t, rfl⟩ := List.append_of_mem hmem
    apply validate_fst_false
    rw [List.foldl_append, List.foldl_cons]
    have hstep : validate_step (s.foldl validate_step []) (key, PyVal.list [])
        = s.foldl validate_step [] ++ ["Filter \x27" ++ key ++ "\x27 has empty list"] := rfl
    rw [hstep]
    obtain ⟨t2, ht2⟩ := validate_errors_prefix t _
    rw [ht2]
    intro hc
    simp at hc
  · intro filters key lo hi hmem hlt
    obtain ⟨s, t, rfl⟩ := List.append_of_mem hmem
    apply validate_fst_false
    rw [List.foldl_append, List.foldl_cons]
    have hgt : pyGTscalar (PyScalar.sInt lo) (PyScalar.sInt hi) = true := by
      simp [pyGTscalar, hlt]
    have hstep : validate_step (s.foldl validate_step []) (key, PyVal.tup [.sInt lo, .sInt hi])
        = s.foldl validate_step []
            ++ ["Filter \x27" ++ key ++ "\x27 range start is greater than end"] := by
      simp [validate_step, hgt]
    rw [hstep]
    obtain ⟨t2, ht2⟩ := validate_errors_prefix t _
    rw [ht2]
    intro hc
    simp at hc
  · intro filters hvalid
    have hstep : ∀ kv ∈ filters, ∀ errs, validate_step errs kv = errs := by
      intro kv hkv errs
      obtain ⟨lo, hi, hv, hle⟩ := hvalid kv hkv
      rcases kv with ⟨k, v⟩
      simp only at hv
      subst hv
      have hgt : pyGTscalar (PyScalar.sInt lo) (PyScalar.sInt hi) = false := by
        simp only [pyGTscalar, decide_eq_false_iff_not]
        omega
      simp [validate_step, hgt]
    have hid := validate_foldl_id filters hstep
    simp [validate_filters, hid]

/-- Witness for C6: the three concrete FilterSpecs of the claim, run
through the general parts of the theorem. -/
theorem C6_witness :
    (("a", PyVal.list []) ∈ [("a", PyVal.list [])])
    ∧ (validate_filters [("a", PyVal.list [])]).1 = false
    ∧ ((5 : Int) < 10 ∧ (validate_filters [("a", PyVal.tup [.sInt 10, .sInt 5])]).1 = false)
    ∧ (validate_filters [("a", PyVal.tup [.sInt 5, .sInt 10])]).1 = true :=
  ⟨by decide,
    C6_validate_filters_contract.1 [("a", PyVal.list [])] "a" (by decide),
    ⟨by decide,
      C6_validate_filters_contract.2.1 [("a", PyVal.tup [.sInt 10, .sInt 5])] "a" 10 5
        (by decide) (by decide)⟩,
    C6_validate_filters_contract.2.2.1 [("a", PyVal.tup [.sInt 5, .sInt 10])]
      (fun kv hkv => by
        rw [List.mem_singleton] at hkv
        subst hkv
        exact ⟨5, 10, rfl, by omega⟩)⟩
